import Mathlib

/-!
Shallow embedding of the two bots of this repository.

`linkgen.py` (class `TelegramGroupManagerBot`) keeps a registry of invite
links, keyed by the link token, in the insertion-ordered dict
`self.link_data`, plus two ephemeral dicts `self.pending_confirmations`
and `self.pending_revokes` keyed by admin user id.

`main.py` (class `MembershipTrackerBot`) keeps `self.join_data`, a dict
from chat id to a dict from user id to the join timestamp, and runs the
daily `remove_expired_members` sweep over it.

Modelling conventions:
* Python dicts become insertion-ordered association lists; `dictLookup`,
  `dictInsert` and `dictErase` mirror `d[k]` / `k in d`, `d[k] = v` and
  `del d[k]` (assignment updates in place, a fresh key is appended).
* Timestamps (`time.time()`, `datetime`) become `Int` seconds; `timedelta`
  arithmetic and datetime comparisons become `Int` arithmetic and order.
* Message text becomes `List Char`; `str.lower()` becomes
  `List.map Char.toLower` and `str.strip()` strips whitespace on both ends.
* Each external platform call is an input: the outcome of
  `create_chat_invite_link` is an `Option String` (the minted token, or
  `none` when the call raises), the outcome of `revoke_chat_invite_link`
  for a given link is `apiOk link`, and the outcome of the
  `ban_chat_member`/`unban_chat_member` pair for a member is
  `banOk chatId userId`.
* Handlers return, besides the new state, a `Bool` recording whether
  `save_data` (persistence) ran during the call.
-/

namespace GroupManager

/-- Stored information for one invite link: the `link_info` dict built in
`generate_invite_link` (linkgen.py lines 74-80). -/
structure LinkInfo where
  created_at : Int
  created_by : Nat
  expires_at : Int
  uses : Nat
  max_uses : Nat
deriving DecidableEq, Repr

/-- Python `d[k]`-as-read / `k in d` on an insertion-ordered dict. -/
def dictLookup {κ α : Type} [DecidableEq κ] (k : κ) : List (κ × α) → Option α
  | [] => none
  | (k1, v) :: rest => if k1 = k then some v else dictLookup k rest

/-- Python `d[k] = v`: an existing key keeps its position, a fresh key is
appended at the end (dict insertion order). -/
def dictInsert {κ α : Type} [DecidableEq κ] (k : κ) (v : α) :
    List (κ × α) → List (κ × α)
  | [] => [(k, v)]
  | (k1, v1) :: rest =>
      if k1 = k then (k, v) :: rest else (k1, v1) :: dictInsert k v rest

/-- Python `del d[k]`: removes the (unique) entry with key `k`. -/
def dictErase {κ α : Type} [DecidableEq κ] (k : κ) :
    List (κ × α) → List (κ × α)
  | [] => []
  | (k1, v) :: rest => if k1 = k then rest else (k1, v) :: dictErase k rest

/-- The activity test used everywhere in linkgen.py (lines 148-149, 227 and
263): `info['expires_at'] > current_time and info['uses'] < info['max_uses']`. -/
def linkIsActive (info : LinkInfo) (now : Int) : Bool :=
  decide (info.expires_at > now) && decide (info.uses < info.max_uses)

/-- The selection of active links shared by `list_links` (lines 147-152) and
the comprehension in `revoke_all_links` (lines 225-228): the entries of the
registry passing `linkIsActive` at the current time, in registry order. -/
def active_links (data : List (String × LinkInfo)) (now : Int) :
    List (String × LinkInfo) :=
  data.filter (fun p => linkIsActive p.2 now)

/-- linkgen.py `generate_invite_link` (lines 55-96), admin path. `mint` is
the outcome of `context.bot.create_chat_invite_link`: `some tok` when the
platform mints token `tok`, `none` when the call raises — the surrounding
`try`/`except` then reaches neither the insertion nor `save_data`, so the
registry is untouched. On success the handler stores `link_info` with
`uses = 0` and `max_uses` the configured quota and saves. Returns the new
registry and whether `save_data` ran. -/
def generate_invite_link (data : List (String × LinkInfo))
    (mint : Option String) (now expireHours : Int)
    (memberLimit userId : Nat) : List (String × LinkInfo) × Bool :=
  match mint with
  | none => (data, false)
  | some tok =>
      (dictInsert tok
        { created_at := now, created_by := userId,
          expires_at := now + expireHours * 3600,
          uses := 0, max_uses := memberLimit } data, true)

/-- Outcome reported by `process_revoke_request`: the success reply or the
"Link not found in database" reply. -/
inductive RevokeOutcome where
  | revoked
  | notFound
deriving DecidableEq, Repr

/-- linkgen.py `process_revoke_request` (lines 190-212). `platformOk` is the
outcome of `revoke_chat_invite_link`; the bare `except: pass` swallows any
failure, so the result does not depend on it. A present link is deleted
locally and the data saved; an absent link leaves everything untouched.
Returns (reply, new registry, whether `save_data` ran). -/
def process_revoke_request (data : List (String × LinkInfo)) (link : String)
    (platformOk : Bool) :
    RevokeOutcome × List (String × LinkInfo) × Bool :=
  if (dictLookup link data).isSome then
    (RevokeOutcome.revoked, dictErase link data, true)
  else (RevokeOutcome.notFound, data, false)

/-- The confirmed revoke-all loop in `handle_pending_actions` (linkgen.py
lines 259-272): iterate over a snapshot `list(self.link_data.items())`; for
each active entry call `revoke_chat_invite_link` — `revoked_count += 1`
runs only when the call succeeds, a `TelegramError` is caught and logged —
and `del self.link_data[link]` runs regardless of the call's outcome.
Inactive entries are untouched. Returns (`revoked_count`, remaining
registry). -/
def revoke_all_process (apiOk : String → Bool) (now : Int) :
    List (String × LinkInfo) → Nat × List (String × LinkInfo)
  | [] => (0, [])
  | (link, info) :: rest =>
      let r := revoke_all_process apiOk now rest
      if linkIsActive info now then
        ((if apiOk link then 1 else 0) + r.1, r.2)
      else (r.1, (link, info) :: r.2)

/-- The mutable state of `TelegramGroupManagerBot`: the link registry and
the two ephemeral dicts, the latter modelled by their membership maps
(both store the constant value `True`, so only key membership matters). -/
structure BotState where
  link_data : List (String × LinkInfo)
  pending_confirmations : Nat → Bool
  pending_revokes : Nat → Bool

/-- linkgen.py `revoke_link` (lines 165-188), admin path. With an argument
the revoke runs immediately; with none the user is put into
`pending_revokes` (the confirmation dict is not touched). -/
def revoke_link (s : BotState) (userId : Nat) (args : Option String)
    (platformOk : Bool) : BotState × Bool :=
  match args with
  | some link =>
      let r := process_revoke_request s.link_data link platformOk
      ({ s with link_data := r.2.1 }, r.2.2)
  | none =>
      ({ s with pending_revokes :=
          fun v => if v = userId then true else s.pending_revokes v }, false)

/-- linkgen.py `revoke_all_links` (lines 214-243), admin path. With no
active link the handler only replies; otherwise the user is put into
`pending_confirmations` (the revoke dict is not touched). -/
def revoke_all_links (s : BotState) (userId : Nat) (now : Int) : BotState :=
  if (active_links s.link_data now).isEmpty then s
  else { s with pending_confirmations :=
      fun v => if v = userId then true else s.pending_confirmations v }

/-- Embedding of `str.lower()` on the message text. -/
def pyLower (text : List Char) : List Char := text.map Char.toLower

/-- Embedding of `str.strip()` on the message text. -/
def pyStrip (text : List Char) : List Char :=
  ((text.dropWhile Char.isWhitespace).reverse.dropWhile
    Char.isWhitespace).reverse

/-- What `handle_pending_actions` did with the message. -/
inductive HandleOutcome where
  | confirmedRevokeAll (count : Nat)
  | cancelled
  | revokeHandled (r : RevokeOutcome)
  | noPending
deriving DecidableEq, Repr

/-- linkgen.py `handle_pending_actions` (lines 245-290) on a text message.
The confirmation branch (lines 252-277) runs first: the pending entry is
deleted regardless of the response, the test is
`update.message.text.lower() == 'yes'` (no strip), and on 'yes' the
revoke-all loop runs followed by one `save_data`; the branch then returns,
leaving `pending_revokes` untouched. Only when the user has no pending
confirmation does the revoke branch (lines 280-286) run: the pending entry
is deleted and the stripped text is passed to `process_revoke_request`.
Returns (state, whether `save_data` ran, outcome). -/
def handle_pending_actions (s : BotState) (userId : Nat) (text : List Char)
    (now : Int) (apiOk : String → Bool) :
    BotState × Bool × HandleOutcome :=
  if s.pending_confirmations userId then
    let s1 := { s with pending_confirmations :=
        fun v => if v = userId then false else s.pending_confirmations v }
    if pyLower text = ['y', 'e', 's'] then
      let r := revoke_all_process apiOk now s1.link_data
      ({ s1 with link_data := r.2 }, true,
        HandleOutcome.confirmedRevokeAll r.1)
    else (s1, false, HandleOutcome.cancelled)
  else if s.pending_revokes userId then
    let s1 := { s with pending_revokes :=
        fun v => if v = userId then false else s.pending_revokes v }
    let r := process_revoke_request s1.link_data
      (String.mk (pyStrip text)) (apiOk (String.mk (pyStrip text)))
    ({ s1 with link_data := r.2.1 }, r.2.2,
      HandleOutcome.revokeHandled r.1)
  else (s, false, HandleOutcome.noPending)

end GroupManager

namespace Tracker

/-- Per-chat member map of main.py: user id ↦ join timestamp (the inner
dict of `self.join_data`). -/
abbrev MemberMap := List (String × Int)

/-- The whole `self.join_data` of `MembershipTrackerBot`: chat id ↦ member
map. -/
abbrev JoinData := List (String × MemberMap)

/-- A join event as `track_new_member` (main.py lines 90-143) sees it:
either a `chat_member` status update carrying the one affected user, or a
message whose `new_chat_members` lists the joining users. Each user carries
its `is_bot` flag. -/
inductive JoinEvent where
  | chatMember (chatId userId : String) (is_bot : Bool) (status : String)
  | newChatMembers (chatId : String) (members : List (String × Bool))

/-- The loop over `update.message.new_chat_members` (main.py lines
122-136): a member whose `is_bot` holds is skipped (`continue`), every
other member's join date is set to now. -/
def trackMessageMembers (now : Int) (members : List (String × Bool))
    (m : Tracker.MemberMap) : Tracker.MemberMap :=
  match members with
  | [] => m
  | (uid, isBot) :: rest =>
      if isBot then trackMessageMembers now rest m
      else trackMessageMembers now rest (GroupManager.dictInsert uid now m)

/-- main.py `track_new_member` (lines 90-143). The `chat_member` branch
(lines 95-114) records the user whenever the new status is `'member'` —
it has no `is_bot` test. The `new_chat_members` branch (lines 117-138)
creates the chat's map and records every non-bot member. Returns the new
`join_data` and whether `save_data` ran. -/
def track_new_member (jd : Tracker.JoinData) (ev : Tracker.JoinEvent)
    (now : Int) : Tracker.JoinData × Bool :=
  match ev with
  | JoinEvent.chatMember chatId userId _isBot status =>
      if status = "member" then
        (GroupManager.dictInsert chatId
          (GroupManager.dictInsert userId now
            ((GroupManager.dictLookup chatId jd).getD [])) jd, true)
      else (jd, false)
  | JoinEvent.newChatMembers chatId members =>
      (GroupManager.dictInsert chatId
        (trackMessageMembers now members
          ((GroupManager.dictLookup chatId jd).getD [])) jd, true)

/-- The expiry test of the sweep (main.py lines 152-167):
`threshold_date = datetime.now() - timedelta(days=30)` and
`join_date < threshold_date`, in seconds. -/
def memberExpired (joinedAt now : Int) : Bool :=
  decide (joinedAt < now - 30 * 86400)

/-- The inner loop of `remove_expired_members` over one chat's members
(main.py lines 164-201). An expired member whose ban/unban pair succeeds
is deleted from the map and counted in `removal_count`; a `TelegramError`
is caught, counted in `error_count`, and the member's record is kept; a
non-expired member is untouched. Returns
(`removal_count`, `error_count`, remaining member map). -/
def sweepChat (banOk : String → String → Bool) (chatId : String)
    (now : Int) : Tracker.MemberMap → Nat × Nat × Tracker.MemberMap
  | [] => (0, 0, [])
  | (uid, jd) :: rest =>
      let r := sweepChat banOk chatId now rest
      if memberExpired jd now then
        if banOk chatId uid then (r.1 + 1, r.2.1, r.2.2)
        else (r.1, r.2.1 + 1, (uid, jd) :: r.2.2)
      else (r.1, r.2.1, (uid, jd) :: r.2.2)

/-- main.py `remove_expired_members` (lines 145-214): the sweep over every
chat of `join_data`. The chat keys themselves are never deleted, only
member entries. One `save_data` follows the full pass, and the summary
reports `removal_count` and `error_count`. Returns
(`removal_count`, `error_count`, new `join_data`). -/
def remove_expired_members (banOk : String → String → Bool) (now : Int) :
    Tracker.JoinData → Nat × Nat × Tracker.JoinData
  | [] => (0, 0, [])
  | (chatId, members) :: rest =>
      let c := sweepChat banOk chatId now members
      let r := remove_expired_members banOk now rest
      (c.1 + r.1, c.2.1 + r.2.1, (chatId, c.2.2) :: r.2.2)

end Tracker

namespace GroupManager

theorem dictLookup_none_iff {κ α : Type} [DecidableEq κ] (k : κ)
    (l : List (κ × α)) : dictLookup k l = none ↔ ∀ p ∈ l, p.1 ≠ k := by
  induction l with
  | nil => simp [dictLookup]
  | cons hd tl ih =>
      obtain ⟨k1, v⟩ := hd
      by_cases h : k1 = k
      · subst h
        simp [dictLookup]
      · simp [dictLookup, h, ih]

theorem dictErase_eq_filter {κ α : Type} [DecidableEq κ] (k : κ)
    (l : List (κ × α)) (h : (l.map Prod.fst).Nodup) :
    dictErase k l = l.filter (fun p => !decide (p.1 = k)) := by
  induction l with
  | nil => simp [dictErase]
  | cons hd tl ih =>
      obtain ⟨k1, v⟩ := hd
      simp only [List.map_cons, List.nodup_cons] at h
      by_cases hk : k1 = k
      · subst hk
        have : tl.filter (fun p => !decide (p.1 = k1)) = tl := by
          apply List.filter_eq_self.mpr
          intro p hp
          simp only [Bool.not_eq_true', decide_eq_false_iff_not]
          intro hpk
          exact h.1 (hpk ▸ List.mem_map_of_mem Prod.fst hp)
        simp [dictErase, this]
      · simp [dictErase, hk, ih h.2]

theorem dictInsert_of_lookup_none {κ α : Type} [DecidableEq κ] (k : κ)
    (v : α) (l : List (κ × α)) (h : dictLookup k l = none) :
    dictInsert k v l = l ++ [(k, v)] := by
  induction l with
  | nil => simp [dictInsert]
  | cons hd tl ih =>
      obtain ⟨k1, v1⟩ := hd
      by_cases hk : k1 = k
      · subst hk
        simp [dictLookup] at h
      · simp only [dictLookup, if_neg hk] at h
        simp [dictInsert, hk, ih h]

/-- C7: `list_links`' selection keeps exactly the records with
`expires_at > now` and `uses < max_uses`; a link expired one second ago is
excluded, a link one hour from expiry with `uses = 0 < 1 = max_uses` is
included, and a link with `uses ≥ max_uses` is excluded whatever its
expiry (`uses = m + k`, `max_uses = m` ranges over all such links). -/
theorem C7_list_active (data : List (String × LinkInfo)) (now : Int)
    (p : String × LinkInfo) (ca e : Int) (cb m k : Nat) :
    (p ∈ active_links data now ↔
      p ∈ data ∧ p.2.expires_at > now ∧ p.2.uses < p.2.max_uses) ∧
    linkIsActive
      { created_at := ca, created_by := cb, expires_at := now - 1,
        uses := 0, max_uses := 1 } now = false ∧
    linkIsActive
      { created_at := ca, created_by := cb, expires_at := now + 3600,
        uses := 0, max_uses := 1 } now = true ∧
    linkIsActive
      { created_at := ca, created_by := cb, expires_at := e,
        uses := m + k, max_uses := m } now = false := by
  refine ⟨?_, ?_, ?_, ?_⟩
  · simp [active_links, List.mem_filter, linkIsActive, and_assoc]
  · simp [linkIsActive]
  · simp [linkIsActive]
  · simp [linkIsActive]

end GroupManager

namespace Tracker

/-- C8: the sweep's expiry test holds iff the member's age strictly
exceeds the 30-day threshold: a member joined 31 days ago is expired, one
joined 29 days ago is not, and one joined exactly 30 days ago is not. -/
theorem C8_expiry_threshold (joinedAt now : Int) :
    (memberExpired joinedAt now = true ↔ now - joinedAt > 30 * 86400) ∧
    memberExpired (now - 31 * 86400) now = true ∧
    memberExpired (now - 29 * 86400) now = false ∧
    memberExpired (now - 30 * 86400) now = false := by
  refine ⟨?_, ?_, ?_, ?_⟩ <;> simp [memberExpired] <;> omega


end Tracker

namespace GroupManager

/-- C5: `process_revoke_request` is independent of the platform call's
outcome (the bare `except: pass`); it reports not-found exactly when the
token is absent, and in that case the registry is returned unchanged and
nothing is persisted; a present token's record is always removed (the
entry with that key is filtered out) and the state persisted. `h` is the
registry invariant that tokens are unique keys. -/
theorem C5_revoke_single (data : List (String × LinkInfo)) (tok : String)
    (platformOk : Bool) (h : (data.map Prod.fst).Nodup) :
    process_revoke_request data tok true
      = process_revoke_request data tok false ∧
    ((process_revoke_request data tok platformOk).1 = RevokeOutcome.notFound
      ↔ dictLookup tok data = none) ∧
    (process_revoke_request data tok platformOk).2.1
      = (if (dictLookup tok data).isSome then
           data.filter (fun p => !decide (p.1 = tok))
         else data) ∧
    (process_revoke_request data tok platformOk).2.2
      = (dictLookup tok data).isSome := by
  refine ⟨rfl, ?_, ?_, ?_⟩
  · cases hl : dictLookup tok data <;>
      simp [process_revoke_request, hl]
  · cases hl : dictLookup tok data <;>
      simp [process_revoke_request, hl, dictErase_eq_filter tok data h]
  · cases hl : dictLookup tok data <;>
      simp [process_revoke_request, hl]

/-- C5 witness: with the one-entry registry holding token "a", revoking
"a" removes the record and persists; the instance discharges the
key-uniqueness hypothesis at a concrete registry. -/
theorem C5_revoke_single_witness :
    (process_revoke_request
        [("a", { created_at := 0, created_by := 1, expires_at := 9,
                 uses := 0, max_uses := 1 })] "a" false).2.1 = [] ∧
    (process_revoke_request
        [("a", { created_at := 0, created_by := 1, expires_at := 9,
                 uses := 0, max_uses := 1 })] "a" false).2.2 = true := by
  have h := C5_revoke_single
    [("a", { created_at := 0, created_by := 1, expires_at := 9,
             uses := 0, max_uses := 1 })] "a" false (by decide)
  exact ⟨by rw [h.2.2.1]; decide, by rw [h.2.2.2]; decide⟩

/-- C6: issuing a link with a freshly minted token appends exactly one new
record, with `uses = 0` and `max_uses` the configured quota, and persists
(every pre-existing record is untouched, so the registry never changes a
`uses` counter on its own); a failed mint leaves the registry unchanged
and unpersisted. -/
theorem C6_issue_link (data : List (String × LinkInfo)) (tok : String)
    (now expireHours : Int) (memberLimit userId : Nat)
    (h : dictLookup tok data = none) :
    generate_invite_link data (some tok) now expireHours memberLimit userId
      = (data ++
          [(tok, { created_at := now, created_by := userId,
                   expires_at := now + expireHours * 3600,
                   uses := 0, max_uses := memberLimit })], true) ∧
    generate_invite_link data none now expireHours memberLimit userId
      = (data, false) := by
  refine ⟨?_, rfl⟩
  simp [generate_invite_link, dictInsert_of_lookup_none tok _ data h]

/-- C6 witness: issuing token "t" on the empty registry at time 0 with an
8-hour expiry and quota 1 yields exactly the one expected record. -/
theorem C6_issue_link_witness :
    generate_invite_link [] (some "t") 0 8 1 5
      = ([("t", { created_at := 0, created_by := 5, expires_at := 28800,
                  uses := 0, max_uses := 1 })], true) ∧
    generate_invite_link [] none 0 8 1 5 = ([], false) := by
  have h := C6_issue_link [] "t" 0 8 1 5 (by decide)
  refine ⟨?_, h.2⟩
  rw [h.1]
  decide

end GroupManager

namespace GroupManager

/-- C1 counterexample: a registry with exactly one active link (N = 1, at
`now = 0`) on which every platform revocation fails. The confirmed
revoke-all loop deletes the link but reports a count of 0, not N = 1. -/
theorem C1_count_counterexample :
    (active_links
      [("L", { created_at := 0, created_by := 1, expires_at := 100,
               uses := 0, max_uses := 1 })] 0).length = 1 ∧
    (revoke_all_process (fun _ => false) 0
      [("L", { created_at := 0, created_by := 1, expires_at := 100,
               uses := 0, max_uses := 1 })]).1 = 0 ∧
    (revoke_all_process (fun _ => false) 0
      [("L", { created_at := 0, created_by := 1, expires_at := 100,
               uses := 0, max_uses := 1 })]).2 = [] := by
  decide

/-- C1 amended: the confirmed revoke-all loop deletes exactly the active
links (the surviving registry is precisely the inactive entries, in
order, records unchanged), and the reported count equals the number of
active links whose platform revocation succeeded — not the number of
links processed. -/
theorem C1_revoke_all_amended (apiOk : String → Bool) (now : Int)
    (data : List (String × LinkInfo)) :
    (revoke_all_process apiOk now data).2
      = data.filter (fun p => !linkIsActive p.2 now) ∧
    (revoke_all_process apiOk now data).1
      = (active_links data now).countP (fun p => apiOk p.1) := by
  induction data with
  | nil => simp [revoke_all_process, active_links]
  | cons hd tl ih =>
      obtain ⟨link, info⟩ := hd
      cases h : linkIsActive info now
      · simp [revoke_all_process, active_links, h, ih.1, ih.2,
          List.filter_cons]
      · cases ha : apiOk link <;>
          simp [revoke_all_process, active_links, h, ha, ih.1, ih.2,
            List.filter_cons, List.countP_cons, Nat.add_comm]

end GroupManager

namespace Tracker

theorem sweepChat_spec (banOk : String → String → Bool) (chatId : String)
    (now : Int) (m : Tracker.MemberMap) :
    sweepChat banOk chatId now m
      = (m.countP (fun p => memberExpired p.2 now && banOk chatId p.1),
         m.countP (fun p => memberExpired p.2 now && !banOk chatId p.1),
         m.filter (fun p => !(memberExpired p.2 now && banOk chatId p.1))) := by
  induction m with
  | nil => simp [sweepChat]
  | cons hd tl ih =>
      obtain ⟨uid, jd⟩ := hd
      cases he : memberExpired jd now
      · simp [sweepChat, he, ih, List.countP_cons, List.filter_cons]
      · cases hb : banOk chatId uid <;>
          simp [sweepChat, he, hb, ih, List.countP_cons, List.filter_cons]

theorem remove_expired_spec (banOk : String → String → Bool) (now : Int)
    (jd : Tracker.JoinData) :
    remove_expired_members banOk now jd
      = ((jd.map (fun c =>
            c.2.countP (fun p => memberExpired p.2 now && banOk c.1 p.1))).sum,
         (jd.map (fun c =>
            c.2.countP (fun p => memberExpired p.2 now && !banOk c.1 p.1))).sum,
         jd.map (fun c =>
            (c.1, c.2.filter
              (fun p => !(memberExpired p.2 now && banOk c.1 p.1))))) := by
  induction jd with
  | nil => simp [remove_expired_members]
  | cons hd tl ih =>
      obtain ⟨cid, members⟩ := hd
      simp [remove_expired_members, sweepChat_spec, ih]

/-- C4: in one sweep, an expired member whose platform removal fails is
counted in `error_count` and the member's record survives (the remaining
map keeps exactly the members that are not expired or whose removal
failed, so a failed member is retried next sweep), the loop continues over
all remaining members, and the sweep — a total function here, the outer
`try`/`except` of the source swallowing any escape — returns the counts of
removed and failed members. -/
theorem C4_sweep_failures (banOk : String → String → Bool) (now : Int)
    (jd : Tracker.JoinData) :
    (remove_expired_members banOk now jd).2.2
      = jd.map (fun c =>
          (c.1, c.2.filter
            (fun p => !(memberExpired p.2 now && banOk c.1 p.1)))) ∧
    (remove_expired_members banOk now jd).2.1
      = (jd.map (fun c =>
          c.2.countP (fun p => memberExpired p.2 now && !banOk c.1 p.1))).sum ∧
    (remove_expired_members banOk now jd).1
      = (jd.map (fun c =>
          c.2.countP (fun p => memberExpired p.2 now && banOk c.1 p.1))).sum := by
  rw [remove_expired_spec]
  exact ⟨rfl, rfl, rfl⟩

theorem remove_no_expired (banOk : String → String → Bool) (now : Int)
    (jd : Tracker.JoinData)
    (h : ∀ c ∈ jd, ∀ p ∈ c.2, memberExpired p.2 now = false) :
    remove_expired_members banOk now jd = (0, 0, jd) := by
  rw [remove_expired_spec]
  refine Prod.ext ?_ (Prod.ext ?_ ?_)
  · simp only
    apply List.sum_eq_zero
    intro n hn
    obtain ⟨c, hc, rfl⟩ := List.mem_map.mp hn
    apply List.countP_eq_zero.mpr
    intro p hp
    simp [h c hc p hp]
  · simp only
    apply List.sum_eq_zero
    intro n hn
    obtain ⟨c, hc, rfl⟩ := List.mem_map.mp hn
    apply List.countP_eq_zero.mpr
    intro p hp
    simp [h c hc p hp]
  · simp only
    conv_rhs => rw [← List.map_id jd]
    apply List.map_congr_left
    intro c hc
    have hf : c.2.filter
        (fun p => !(memberExpired p.2 now && banOk c.1 p.1)) = c.2 := by
      apply List.filter_eq_self.mpr
      intro p hp
      simp [h c hc p hp]
    rw [hf]
    rfl

/-- C9: running the sweep twice in immediate succession at the same time,
with every platform removal succeeding on the first run, gives a second
run that removes nothing, reports zero errors, and leaves the registry
exactly as the first run left it — whatever the platform outcomes of the
second run. -/
theorem C9_sweep_idempotent (now : Int) (jd : Tracker.JoinData)
    (banOk2 : String → String → Bool) :
    remove_expired_members banOk2 now
        (remove_expired_members (fun _ _ => true) now jd).2.2
      = (0, 0, (remove_expired_members (fun _ _ => true) now jd).2.2) := by
  apply remove_no_expired
  intro c hc p hp
  rw [remove_expired_spec] at hc
  simp only at hc
  obtain ⟨c0, _, rfl⟩ := List.mem_map.mp hc
  have := List.of_mem_filter hp
  simpa using this

/-- C3, evaluated at the failing input: a `chat_member` status update in
chat "c" whose joining account "42" IS a bot (`is_bot = true`) with new
status `'member'`, arriving on the empty registry at time 1000, inserts a
`joinedAt` record for the bot (and saves) — the `chat_member` branch has
no bot test. The second conjunct contrasts the `new_chat_members` path,
which does skip the same bot (only the chat's empty map is created). -/
theorem C3_bot_join_eval :
    track_new_member [] (Tracker.JoinEvent.chatMember "c" "42" true "member")
        1000
      = ([("c", [("42", 1000)])], true) ∧
    track_new_member [] (Tracker.JoinEvent.newChatMembers "c" [("42", true)])
        1000
      = ([("c", [])], true) := by
  decide

end Tracker

namespace GroupManager

/-- Registry and pending dicts at the start of the C2 scenario: one link,
active at `now = 0`, and no pending action. -/
def c2Link : LinkInfo :=
  { created_at := 0, created_by := 1, expires_at := 100, uses := 0,
    max_uses := 1 }

/-- Start of the C2 scenario: the single link "L" and no pending action. -/
def c2Start : BotState :=
  { link_data := [("L", c2Link)],
    pending_confirmations := fun _ => false,
    pending_revokes := fun _ => false }

/-- State after admin 7 sends `/revoke` with no argument and then
`/revoke_all` (a link is active at `now = 0`, so the confirmation is
requested). -/
def c2AfterBoth : BotState :=
  revoke_all_links (revoke_link c2Start 7 none true).1 7 0

/-- State after admin 7 then sends the text "no". -/
def c2AfterText : BotState :=
  (handle_pending_actions c2AfterBoth 7 ['n', 'o'] 0 (fun _ => true)).1

/-- C2 counterexample: after `/revoke` (no argument) followed by
`/revoke_all`, admin 7 holds BOTH a pending revoke-target and a pending
revoke-all confirmation — two pending actions at once — and the very next
text input ("no") consumes only the confirmation, leaving the pending
revoke-target in place. -/
theorem C2_pending_counterexample :
    c2AfterBoth.pending_confirmations 7 = true ∧
    c2AfterBoth.pending_revokes 7 = true ∧
    c2AfterText.pending_confirmations 7 = false ∧
    c2AfterText.pending_revokes 7 = true := by
  decide

/-- C2 amended: each of the two workflow dicts separately holds at most
one pending entry per user, overwritten by a new request of the same
kind, but the dicts are independent: a user can hold both a pending
confirmation and a pending revoke-target. A text input always consumes
the user's pending confirmation, while the pending revoke-target survives
exactly when a confirmation was pending (the confirmation branch returns
first); neither `/revoke_all` nor `/revoke` touches the other workflow's
dict. -/
theorem C2_pending_amended (s : BotState) (u : Nat) (text : List Char)
    (now : Int) (apiOk : String → Bool) (pOk : Bool) :
    (handle_pending_actions s u text now apiOk).1.pending_confirmations u
      = false ∧
    (handle_pending_actions s u text now apiOk).1.pending_revokes u
      = (s.pending_confirmations u && s.pending_revokes u) ∧
    (revoke_all_links s u now).pending_revokes = s.pending_revokes ∧
    (revoke_link s u none pOk).1.pending_confirmations
      = s.pending_confirmations := by
  refine ⟨?_, ?_, ?_, ?_⟩
  · unfold handle_pending_actions
    cases h1 : s.pending_confirmations u
    · cases h2 : s.pending_revokes u <;> simp [h1, h2]
    · by_cases h3 : pyLower text = ['y', 'e', 's'] <;> simp [h1, h3]
  · unfold handle_pending_actions
    cases h1 : s.pending_confirmations u
    · cases h2 : s.pending_revokes u <;> simp [h1, h2]
    · by_cases h3 : pyLower text = ['y', 'e', 's'] <;> simp [h1, h3]
  · unfold revoke_all_links
    by_cases h : (active_links s.link_data now).isEmpty <;> simp [h]
  · unfold revoke_link
    rfl

/-- C10: while admin `u` awaits revoke-all confirmation, the handler
lowercases the raw input without stripping it and compares it with
'yes': the registry becomes the revoke-all result and is persisted
exactly when the lowercased raw text equals 'yes'; any other text —
including 'yes' with a leading blank, since lowercasing keeps the blank —
cancels, leaving the registry unchanged and unpersisted. -/
theorem C10_confirmation (s : BotState) (u : Nat) (text : List Char)
    (now : Int) (apiOk : String → Bool)
    (h : s.pending_confirmations u = true) :
    (handle_pending_actions s u text now apiOk).1.link_data
      = (if pyLower text = ['y', 'e', 's']
         then (revoke_all_process apiOk now s.link_data).2
         else s.link_data) ∧
    (handle_pending_actions s u text now apiOk).2.1
      = decide (pyLower text = ['y', 'e', 's']) ∧
    (handle_pending_actions s u text now apiOk).2.2
      = (if pyLower text = ['y', 'e', 's']
         then HandleOutcome.confirmedRevokeAll
                (revoke_all_process apiOk now s.link_data).1
         else HandleOutcome.cancelled) ∧
    pyLower [' ', 'y', 'e', 's'] ≠ ['y', 'e', 's'] ∧
    pyLower ['Y', 'E', 'S'] = ['y', 'e', 's'] := by
  unfold handle_pending_actions
  by_cases hy : pyLower text = ['y', 'e', 's'] <;>
    refine ⟨?_, ?_, ?_, by decide, by decide⟩ <;>
    simp [h, hy]

/-- Concrete state for the C10 witness: admin 7 awaits revoke-all
confirmation over a registry with one active link. -/
def c10Link : LinkInfo :=
  { created_at := 0, created_by := 1, expires_at := 50, uses := 0,
    max_uses := 2 }

/-- Pending-confirmation state of the C10 witness for admin 7. -/
def c10State : BotState :=
  { link_data := [("K", c10Link)],
    pending_confirmations := fun v => v == 7,
    pending_revokes := fun _ => false }

/-- C10 witness: admin 7, awaiting confirmation, replies " yes" (leading
blank): the operation is cancelled, the registry is unchanged and nothing
is persisted. -/
theorem C10_confirmation_witness :
    (handle_pending_actions c10State 7 [' ', 'y', 'e', 's'] 0
        (fun _ => true)).1.link_data = c10State.link_data ∧
    (handle_pending_actions c10State 7 [' ', 'y', 'e', 's'] 0
        (fun _ => true)).2.1 = false := by
  have h := C10_confirmation c10State 7 [' ', 'y', 'e', 's'] 0
    (fun _ => true) (by decide)
  refine ⟨?_, ?_⟩
  · rw [h.1, if_neg h.2.2.2.1]
  · rw [h.2.1]
    decide

end GroupManager
